import Mathlib

/-!
Verification of the ACP700 Duty Manager rule engines.

This file gives a shallow embedding, in Lean 4, of the FDP calculator
(`js/fdp-calculator.js`), the rest calculator (`rest-calculator.js`), the
compliance checker (`js/compliance.js`) and the record-store duty-record
operations (`js/storage.js`), together with theorems settling the stated
properties of those modules.

Modelling conventions:
* JavaScript numbers holding whole minutes are modelled as `Int`
  (all relevant arithmetic stays integral); quantities that may be
  fractional (`parseFloat` results, ratios, percentages) are modelled as `ℚ`.
* A JavaScript `NaN` / `null` flowing through a computation is modelled by
  `Option` (`none` = NaN/null), with explicit propagation where the source
  lets NaN propagate.
* JS `%` and `Math.floor` division on the non-negative operands occurring in
  the source agree with Lean's `Int` `%` and `/`.
* Dates: the source stores dates as `YYYY-MM-DD` strings and compares
  `new Date(...)` values.  A calendar date is modelled as an integer day
  index; `new Date(dateString)` is midnight of that day, i.e. instant
  `day * 1440` in minutes; "now" is a day index plus a minute-of-day.
  The impure `new Date()` calls are threaded as an explicit `now` argument.
-/

/-- Numeric value of a decimal digit character. -/
def digitVal (c : Char) : Nat := c.toNat - Char.toNat '0'

/-- Value of a list of decimal digit characters, most significant first. -/
def digitsToNat (cs : List Char) : Nat := cs.foldl (fun a c => 10 * a + digitVal c) 0

/-- JavaScript `String.prototype.split` with a one-character separator,
acting on the character list of the string: a string with no separator
yields a single field and empty fields are kept, so the result is always
non-empty. -/
def splitChars (sep : Char) : List Char → List (List Char)
  | [] => [[]]
  | c :: rest =>
      match splitChars sep rest with
      | [] => [[]]
      | field :: fields =>
          if c = sep then [] :: field :: fields else (c :: field) :: fields

/-- Model of JavaScript `parseInt(s, 10)` after the sign has been consumed:
take the longest prefix of decimal digits; no digits means NaN (`none`). -/
def jsParseIntFrom (sign : Int) (cs : List Char) : Option Int :=
  let ds := cs.takeWhile Char.isDigit
  if ds.isEmpty then none else some (sign * (digitsToNat ds : Int))

/-- Model of JavaScript `parseInt(s, 10)` on a character list: skip leading
whitespace, allow an optional sign, read the longest digit prefix, ignore
any trailing characters; `none` models `NaN`. -/
def jsParseInt (cs : List Char) : Option Int :=
  match cs.dropWhile Char.isWhitespace with
  | [] => none
  | c :: rest =>
      if c = '-' then jsParseIntFrom (-1) rest
      else if c = '+' then jsParseIntFrom 1 rest
      else jsParseIntFrom 1 (c :: rest)

/-- Model of JavaScript `Math.round` (round half toward positive infinity). -/
def jsRound (q : ℚ) : Int := ⌊q + 1 / 2⌋

namespace FDPCalculator

/-- `UNACCLIMATIZED_REDUCTION` from `fdp-calculator.js`. -/
def UNACCLIMATIZED_REDUCTION : Int := 60

/-- `MAX_FDP_ABSOLUTE` from `fdp-calculator.js`. -/
def MAX_FDP_ABSOLUTE : Int := 840

/-- `MIN_FDP_ABSOLUTE` from `fdp-calculator.js`. -/
def MIN_FDP_ABSOLUTE : Int := 540

/-- `WOCL_START` (02:00) from `fdp-calculator.js`. -/
def WOCL_START : Int := 120

/-- `WOCL_END` (06:00) from `fdp-calculator.js`. -/
def WOCL_END : Int := 360

/-- `timeToMinutes` from `fdp-calculator.js` (strict variant): split on a
colon into exactly two fields, `parseInt` each, reject out-of-range hour or
minute; `none` models the `null` sentinel. -/
def timeToMinutes (timeStr : String) : Option Int :=
  if timeStr = "" then none
  else if (splitChars ':' timeStr.toList).length ≠ 2 then none
  else
    match jsParseInt ((splitChars ':' timeStr.toList).getD 0 []),
        jsParseInt ((splitChars ':' timeStr.toList).getD 1 []) with
    | some hours, some minutes =>
        if hours < 0 ∨ hours > 23 ∨ minutes < 0 ∨ minutes > 59 then none
        else some (hours * 60 + minutes)
    | _, _ => none

/-- `FDP_TABLE` from `fdp-calculator.js`: the 6 × 3 regulatory table
(keys are the report-time-range and sector-range bucket strings). -/
def FDP_TABLE (timeRange sectorRange : String) : Int :=
  match timeRange, sectorRange with
  | "0600-0659", "1-2" => 780
  | "0600-0659", "3-4" => 750
  | "0600-0659", "5+" => 720
  | "0700-1159", "1-2" => 840
  | "0700-1159", "3-4" => 810
  | "0700-1159", "5+" => 780
  | "1200-1359", "1-2" => 780
  | "1200-1359", "3-4" => 750
  | "1200-1359", "5+" => 720
  | "1400-1759", "1-2" => 720
  | "1400-1759", "3-4" => 690
  | "1400-1759", "5+" => 660
  | "1800-2159", "1-2" => 660
  | "1800-2159", "3-4" => 630
  | "1800-2159", "5+" => 600
  | "2200-0559", "1-2" => 600
  | "2200-0559", "3-4" => 570
  | "2200-0559", "5+" => 540
  | _, _ => 0

/-- `getReportTimeRange` from `fdp-calculator.js`. -/
def getReportTimeRange (reportMinutes : Int) : String :=
  let hour := reportMinutes / 60
  if 6 ≤ hour ∧ hour < 7 then "0600-0659"
  else if 7 ≤ hour ∧ hour < 12 then "0700-1159"
  else if 12 ≤ hour ∧ hour < 14 then "1200-1359"
  else if 14 ≤ hour ∧ hour < 18 then "1400-1759"
  else if 18 ≤ hour ∧ hour < 22 then "1800-2159"
  else "2200-0559"

/-- `getSectorRange` from `fdp-calculator.js`. -/
def getSectorRange (sectors : Int) : String :=
  if sectors ≤ 2 then "1-2" else if sectors ≤ 4 then "3-4" else "5+"

/-- `isInWOCL` from `fdp-calculator.js`. -/
def isInWOCL (timeMinutes : Int) : Bool :=
  decide (WOCL_START ≤ timeMinutes) && decide (timeMinutes < WOCL_END)

/-- `encroachesWOCL` from `fdp-calculator.js`, including the three-way
disjunction of the overnight branch, verbatim. -/
def encroachesWOCL (startMinutes endMinutes : Int) : Bool :=
  if endMinutes < startMinutes then
    decide (startMinutes < WOCL_END) || decide (WOCL_START < endMinutes) ||
      (decide (startMinutes ≤ WOCL_END) && decide (WOCL_START ≤ endMinutes))
  else
    decide (startMinutes < WOCL_END) && decide (WOCL_START < endMinutes)

/-- Result record of `FDPCalculator.calculate` (formatted display strings of
the source are omitted; all semantic fields are kept). -/
structure FDPResult where
  success : Bool
  maxFDP : Option Int
  endOfDuty : Option Int
  woclEncroachment : Bool
  woclInfo : String
  reportTimeRange : Option String
  sectorRange : Option String
  reductions : List Int
  reportMinutes : Option Int
  error : Option String
deriving DecidableEq

/-- The error result produced by `calculate`'s validation failures. -/
def fdpError (msg : String) : FDPResult :=
  { success := false, maxFDP := none, endOfDuty := none, woclEncroachment := false
    woclInfo := "No encroachment", reportTimeRange := none, sectorRange := none
    reductions := [], reportMinutes := none, error := some msg }

/-- The `maxFDP` computation inside `calculate`: table lookup, the
unacclimatized deduction, then clamping into the absolute limits
(`Math.max(MIN, Math.min(MAX, maxFDP))`). -/
def calcMaxFDP (reportMinutes sectors : Int) (acclimatizationStatus : String) : Int :=
  max MIN_FDP_ABSOLUTE (min MAX_FDP_ABSOLUTE
    (FDP_TABLE (getReportTimeRange reportMinutes) (getSectorRange sectors) -
      (if acclimatizationStatus = "unacclimatized" then UNACCLIMATIZED_REDUCTION else 0)))

/-- `calculate` from `fdp-calculator.js`: validate the report time and the
sector count, look up and clamp the maximum FDP, compute the end of duty
and the WOCL-encroachment flag. -/
def calculate (reportTime : String) (sectors : Int) (acclimatizationStatus : String) :
    FDPResult :=
  match timeToMinutes reportTime with
  | none => fdpError "Invalid report time format. Please use HH:MM."
  | some reportMinutes =>
      if sectors < 1 ∨ sectors > 10 then
        fdpError "Invalid number of sectors. Please enter 1-10."
      else
        { success := true
          maxFDP := some (calcMaxFDP reportMinutes sectors acclimatizationStatus)
          endOfDuty :=
            some ((reportMinutes + calcMaxFDP reportMinutes sectors acclimatizationStatus) % 1440)
          woclEncroachment :=
            encroachesWOCL reportMinutes
              ((reportMinutes + calcMaxFDP reportMinutes sectors acclimatizationStatus) % 1440)
          woclInfo :=
            if encroachesWOCL reportMinutes
                ((reportMinutes + calcMaxFDP reportMinutes sectors acclimatizationStatus) % 1440)
            then "Duty encroaches WOCL (0200-0559)"
            else if isInWOCL reportMinutes then "Report time is within WOCL"
            else "No encroachment"
          reportTimeRange := some (getReportTimeRange reportMinutes)
          sectorRange := some (getSectorRange sectors)
          reductions :=
            if acclimatizationStatus = "unacclimatized" then [UNACCLIMATIZED_REDUCTION] else []
          reportMinutes := some reportMinutes
          error := none }

end FDPCalculator

/-- Spec-side notion for the WOCL claim: membership of minute `m` in the
window `[WOCL_START, WOCL_END)`. -/
def inWOCLWindow (m : Int) : Prop :=
  FDPCalculator.WOCL_START ≤ m ∧ m < FDPCalculator.WOCL_END

/-- Spec-side notion: membership of minute `m` in the circular (24-hour
clock) half-open interval `[s, e)`: when the interval does not wrap it is
ordinary membership, when it wraps past midnight (`e < s`) it is membership
in `[s, 1440) ∪ [0, e)`. -/
def inCircularInterval (s e m : Int) : Prop :=
  (s ≤ e ∧ (s ≤ m ∧ m < e)) ∨ (e < s ∧ (s ≤ m ∨ m < e))

/-- Spec-side notion: the circular interval `[s, e)` intersects the WOCL
window `[02:00, 06:00)` on a 24-hour clock. -/
def circularIntersectsWOCL (s e : Int) : Prop :=
  ∃ m : Int, 0 ≤ m ∧ m < 1440 ∧ inCircularInterval s e m ∧ inWOCLWindow m

namespace RestCalculator

/-- `STANDARD_MIN` (10 h) from the rest calculator's `REST_REQUIREMENTS`. -/
def STANDARD_MIN : Int := 600

/-- `EXTENDED_DUTY_MIN` (12 h) from `REST_REQUIREMENTS`. -/
def EXTENDED_DUTY_MIN : Int := 720

/-- `EXTENDED_DUTY_THRESHOLD` (12 h of duty) from `REST_REQUIREMENTS`. -/
def EXTENDED_DUTY_THRESHOLD : ℚ := 720

/-- `VERY_LONG_DUTY_MIN` (14 h) from `REST_REQUIREMENTS`. -/
def VERY_LONG_DUTY_MIN : Int := 840

/-- `VERY_LONG_DUTY_THRESHOLD` (14 h of duty) from `REST_REQUIREMENTS`. -/
def VERY_LONG_DUTY_THRESHOLD : ℚ := 840

/-- `MIN_SLEEP_OPPORTUNITY` (8 h) from `REST_REQUIREMENTS`. -/
def MIN_SLEEP_OPPORTUNITY : Int := 480

/-- `timeToMinutes` of the rest calculator; its source is character-for-
character the same function as the FDP calculator's. -/
def timeToMinutes : String → Option Int := FDPCalculator.timeToMinutes

/-- `getTimezoneCategory` from the rest calculator. -/
def getTimezoneCategory (zonesCrossed : Int) : String :=
  if zonesCrossed ≤ 2 then "0-2" else if zonesCrossed ≤ 4 then "3-4" else "5+"

/-- `TIMEZONE_ADJUSTMENTS` lookup from the rest calculator. -/
def TIMEZONE_ADJUSTMENTS (category : String) : Int :=
  match category with
  | "0-2" => 0
  | "3-4" => 60
  | "5+" => 120
  | _ => 0

/-- `ACCLIMATIZATION_PERIODS` lookup from the rest calculator. -/
def ACCLIMATIZATION_PERIODS (category : String) : Int :=
  match category with
  | "0-2" => 0
  | "3-4" => 48
  | "5+" => 72
  | _ => 0

/-- Result record of `RestCalculator.calculate` (display-formatted strings
omitted; `components` keeps the itemized (reason, amount) pairs). -/
structure RestResult where
  success : Bool
  minRest : Option Int
  nextReport : Option Int
  recommendedRest : Option Int
  components : List (String × Int)
  acclimatizationRequired : Option Int
  crossesMidnight : Bool
  error : Option String
deriving DecidableEq

/-- The error result produced by `calculate`'s validation failures. -/
def restError (msg : String) : RestResult :=
  { success := false, minRest := none, nextReport := none, recommendedRest := none
    components := [], acclimatizationRequired := none, crossesMidnight := false
    error := some msg }

/-- `calculate` from the rest calculator: validate the duty-end time and the
duty length (in hours, `parseFloat`-fractional, converted to minutes and
required to lie in `[0, 1440]`), pick the base tier, add the time-zone
adjustment when positive, apply the sleep-opportunity floor, and derive the
recommended rest and next report time. -/
def calculate (dutyEndTime : String) (dutyLengthHours : ℚ) (timezonesCrossed : Int) :
    RestResult :=
  match timeToMinutes dutyEndTime with
  | none => restError "Invalid duty end time format. Please use HH:MM."
  | some dutyEndMinutes =>
      let dutyMinutes : ℚ := dutyLengthHours * 60
      if dutyMinutes < 0 ∨ dutyMinutes > 1440 then
        restError "Invalid duty period length. Please enter 0-24 hours."
      else
        let baseRest : Int :=
          if VERY_LONG_DUTY_THRESHOLD ≤ dutyMinutes then VERY_LONG_DUTY_MIN
          else if EXTENDED_DUTY_THRESHOLD ≤ dutyMinutes then EXTENDED_DUTY_MIN
          else STANDARD_MIN
        let baseComponent : String × Int :=
          if VERY_LONG_DUTY_THRESHOLD ≤ dutyMinutes then
            ("Very long duty (14h+)", VERY_LONG_DUTY_MIN)
          else if EXTENDED_DUTY_THRESHOLD ≤ dutyMinutes then
            ("Extended duty (12h+)", EXTENDED_DUTY_MIN)
          else ("Standard rest requirement", STANDARD_MIN)
        let tzCategory := getTimezoneCategory timezonesCrossed
        let tzAdjustment := TIMEZONE_ADJUSTMENTS tzCategory
        let minRest1 := if tzAdjustment > 0 then baseRest + tzAdjustment else baseRest
        let components1 :=
          if tzAdjustment > 0 then
            [baseComponent, ("Time zone crossing (" ++ tzCategory ++ ")", tzAdjustment)]
          else [baseComponent]
        let minRestWithSleep := MIN_SLEEP_OPPORTUNITY + 120
        let minRest2 := if minRest1 < minRestWithSleep then minRestWithSleep else minRest1
        let components2 :=
          if minRest1 < minRestWithSleep then
            components1 ++ [("Minimum sleep opportunity adjustment", minRestWithSleep - minRest2)]
          else components1
        let recommendedRest : Int := ⌈(minRest2 : ℚ) * (5 / 4 : ℚ)⌉
        let nextReportMinutes := dutyEndMinutes + minRest2
        { success := true
          minRest := some minRest2
          nextReport := some (nextReportMinutes % 1440)
          recommendedRest := some recommendedRest
          components := components2
          acclimatizationRequired := some (ACCLIMATIZATION_PERIODS tzCategory)
          crossesMidnight := decide (1440 ≤ nextReportMinutes)
          error := none }

end RestCalculator

namespace ComplianceChecker

/-- `LIMITS.DUTY_7_DAY` (60 h). -/
def DUTY_7_DAY : Int := 3600

/-- `LIMITS.DUTY_28_DAY` (190 h). -/
def DUTY_28_DAY : Int := 11400

/-- `LIMITS.FLIGHT_TIME_28_DAY` (112 h). -/
def FLIGHT_TIME_28_DAY : Int := 6720

/-- `LIMITS.FLIGHT_TIME_365_DAY` (1000 h). -/
def FLIGHT_TIME_365_DAY : Int := 60000

/-- `LIMITS.FLIGHT_TIME_SINGLE_DUTY` (8 h). -/
def FLIGHT_TIME_SINGLE_DUTY : Int := 480

/-- `LIMITS.FLIGHT_TIME_AUGMENTED` (13 h). -/
def FLIGHT_TIME_AUGMENTED : Int := 780

/-- `LIMITS.WARNING_THRESHOLD`. -/
def WARNING_THRESHOLD : ℚ := 0.85

/-- `LIMITS.DANGER_THRESHOLD`. -/
def DANGER_THRESHOLD : ℚ := 0.95

/-- The `STATUS` constants of `compliance.js`. -/
inductive Status where
  | good
  | warning
  | danger
  | exceeded
deriving DecidableEq

/-- `getStatus` from `compliance.js`. -/
def getStatus (current limit : ℚ) : Status :=
  let frac := current / limit
  if 1 ≤ frac then Status.exceeded
  else if DANGER_THRESHOLD ≤ frac then Status.danger
  else if WARNING_THRESHOLD ≤ frac then Status.warning
  else Status.good

/-- A duty record as consumed by the compliance checker: calendar date as an
integer day index, plus the two minute totals (`record.dutyMinutes || 0` and
`record.flightMinutes || 0` of the source are the fields themselves here). -/
structure Rec where
  date : Int
  dutyMinutes : Int
  flightMinutes : Int
deriving DecidableEq

/-- The wall clock "now": a day index and a minute of that day. -/
structure Now where
  day : Int
  minuteOfDay : Int
deriving DecidableEq

/-- `filterByDateRange` from `compliance.js`: keep records whose date instant
lies between midnight of (today − `days`) and the current instant, both ends
inclusive.  `new Date(record.date)` is the record's midnight instant
`r.date * 1440`; the cutoff `setDate(getDate() - days); setHours(0,0,0,0)`
is `(now.day - days) * 1440`. -/
def filterByDateRange (records : List Rec) (days : Int) (now : Now) : List Rec :=
  records.filter (fun r =>
    decide ((now.day - days) * 1440 ≤ r.date * 1440) &&
      decide (r.date * 1440 ≤ now.day * 1440 + now.minuteOfDay))

/-- `sumDutyTime` from `compliance.js`. -/
def sumDutyTime (records : List Rec) : Int :=
  records.foldl (fun total r => total + r.dutyMinutes) 0

/-- `sumFlightTime` from `compliance.js`. -/
def sumFlightTime (records : List Rec) : Int :=
  records.foldl (fun total r => total + r.flightMinutes) 0

/-- One compliance check result (formatted display strings omitted;
`periodDays`/`crewType` are `none` where the source leaves them undefined). -/
structure Check where
  current : Int
  limit : Int
  remaining : Int
  percentage : ℚ
  status : Status
  compliant : Bool
  periodDays : Option Nat
  crewType : Option String
  recordCount : Nat
deriving DecidableEq

/-- `check7DayDuty` from `compliance.js`. -/
def check7DayDuty (dutyRecords : List Rec) (now : Now) : Check :=
  let records := filterByDateRange dutyRecords 7 now
  let totalMinutes := sumDutyTime records
  { current := totalMinutes
    limit := DUTY_7_DAY
    remaining := DUTY_7_DAY - totalMinutes
    percentage := min 100 ((totalMinutes : ℚ) / (DUTY_7_DAY : ℚ) * 100)
    status := getStatus (totalMinutes : ℚ) (DUTY_7_DAY : ℚ)
    compliant := decide (totalMinutes ≤ DUTY_7_DAY)
    periodDays := some 7
    crewType := none
    recordCount := records.length }

/-- `check28DayDuty` from `compliance.js`. -/
def check28DayDuty (dutyRecords : List Rec) (now : Now) : Check :=
  let records := filterByDateRange dutyRecords 28 now
  let totalMinutes := sumDutyTime records
  { current := totalMinutes
    limit := DUTY_28_DAY
    remaining := DUTY_28_DAY - totalMinutes
    percentage := min 100 ((totalMinutes : ℚ) / (DUTY_28_DAY : ℚ) * 100)
    status := getStatus (totalMinutes : ℚ) (DUTY_28_DAY : ℚ)
    compliant := decide (totalMinutes ≤ DUTY_28_DAY)
    periodDays := some 28
    crewType := none
    recordCount := records.length }

/-- `check28DayFlightTime` from `compliance.js`. -/
def check28DayFlightTime (dutyRecords : List Rec) (now : Now) : Check :=
  let records := filterByDateRange dutyRecords 28 now
  let totalMinutes := sumFlightTime records
  { current := totalMinutes
    limit := FLIGHT_TIME_28_DAY
    remaining := FLIGHT_TIME_28_DAY - totalMinutes
    percentage := min 100 ((totalMinutes : ℚ) / (FLIGHT_TIME_28_DAY : ℚ) * 100)
    status := getStatus (totalMinutes : ℚ) (FLIGHT_TIME_28_DAY : ℚ)
    compliant := decide (totalMinutes ≤ FLIGHT_TIME_28_DAY)
    periodDays := some 28
    crewType := none
    recordCount := records.length }

/-- `check365DayFlightTime` from `compliance.js`. -/
def check365DayFlightTime (dutyRecords : List Rec) (now : Now) : Check :=
  let records := filterByDateRange dutyRecords 365 now
  let totalMinutes := sumFlightTime records
  { current := totalMinutes
    limit := FLIGHT_TIME_365_DAY
    remaining := FLIGHT_TIME_365_DAY - totalMinutes
    percentage := min 100 ((totalMinutes : ℚ) / (FLIGHT_TIME_365_DAY : ℚ) * 100)
    status := getStatus (totalMinutes : ℚ) (FLIGHT_TIME_365_DAY : ℚ)
    compliant := decide (totalMinutes ≤ FLIGHT_TIME_365_DAY)
    periodDays := some 365
    crewType := none
    recordCount := records.length }

/-- `checkCurrentFDP` from `compliance.js`. -/
def checkCurrentFDP (currentFDPMinutes maxFDPMinutes : Int) : Check :=
  { current := currentFDPMinutes
    limit := maxFDPMinutes
    remaining := maxFDPMinutes - currentFDPMinutes
    percentage := min 100 ((currentFDPMinutes : ℚ) / (maxFDPMinutes : ℚ) * 100)
    status := getStatus (currentFDPMinutes : ℚ) (maxFDPMinutes : ℚ)
    compliant := decide (currentFDPMinutes ≤ maxFDPMinutes)
    periodDays := none
    crewType := none
    recordCount := 0 }

/-- `checkCurrentFlightTime` from `compliance.js`. -/
def checkCurrentFlightTime (currentFlightMinutes : Int) (isAugmented : Bool) : Check :=
  let limit := if isAugmented then FLIGHT_TIME_AUGMENTED else FLIGHT_TIME_SINGLE_DUTY
  { current := currentFlightMinutes
    limit := limit
    remaining := limit - currentFlightMinutes
    percentage := min 100 ((currentFlightMinutes : ℚ) / (limit : ℚ) * 100)
    status := getStatus (currentFlightMinutes : ℚ) (limit : ℚ)
    compliant := decide (currentFlightMinutes ≤ limit)
    periodDays := none
    crewType := some (if isAugmented then "augmented" else "single")
    recordCount := 0 }

/-- `getCheckName` from `compliance.js`. -/
def getCheckName (check : Check) : String :=
  if check.periodDays = some 7 then "7-Day Duty"
  else if check.periodDays = some 28 ∧ check.limit = DUTY_28_DAY then "28-Day Duty"
  else if check.periodDays = some 28 ∧ check.limit = FLIGHT_TIME_28_DAY then
    "28-Day Flight Time"
  else if check.periodDays = some 365 then "Annual Flight Time"
  else if check.crewType.isSome then "Current Flight Time"
  else "FDP"

/-- The optional `currentDuty` argument of `runAllChecks`. -/
structure CurrentDuty where
  elapsedFDP : Option Int
  maxFDP : Option Int
  elapsedFlightTime : Option Int
  isAugmented : Bool
deriving DecidableEq

/-- The full compliance report assembled by `runAllChecks`.  `violations`
and `warnings` record the check names (`getCheckName`) of the pushed
entries, in push order. -/
structure Report where
  duty7Day : Check
  duty28Day : Check
  flightTime28Day : Check
  flightTime365Day : Check
  currentFDP : Option Check
  currentFlightTime : Option Check
  overallStatus : Status
  allCompliant : Bool
  warnings : List String
  violations : List String
deriving DecidableEq

/-- `runAllChecks` from `compliance.js`.  The aggregation list `allChecks`
mirrors the source verbatim: `duty7Day`, `duty28Day`, `flightTime28Day`,
`currentFDP`, `currentFlightTime` — the source does NOT include
`flightTime365Day` in it. -/
def runAllChecks (dutyRecords : List Rec) (now : Now) (currentDuty : Option CurrentDuty) :
    Report :=
  let duty7Day := check7DayDuty dutyRecords now
  let duty28Day := check28DayDuty dutyRecords now
  let flightTime28Day := check28DayFlightTime dutyRecords now
  let flightTime365Day := check365DayFlightTime dutyRecords now
  let currentFDPCheck : Option Check :=
    match currentDuty with
    | some cd =>
        match cd.elapsedFDP, cd.maxFDP with
        | some e, some m => some (checkCurrentFDP e m)
        | _, _ => none
    | none => none
  let currentFlightTimeCheck : Option Check :=
    match currentDuty with
    | some cd =>
        match cd.elapsedFlightTime with
        | some e => some (checkCurrentFlightTime e cd.isAugmented)
        | none => none
    | none => none
  let allChecks : List Check :=
    [some duty7Day, some duty28Day, some flightTime28Day,
      currentFDPCheck, currentFlightTimeCheck].filterMap id
  let violations := (allChecks.filter (fun c => !c.compliant)).map getCheckName
  let warnings :=
    (allChecks.filter (fun c => decide (c.status = Status.warning))).map getCheckName
  let allCompliant := allChecks.all (fun c => c.compliant)
  let someDanger := allChecks.any (fun c => decide (c.status = Status.danger))
  { duty7Day := duty7Day
    duty28Day := duty28Day
    flightTime28Day := flightTime28Day
    flightTime365Day := flightTime365Day
    currentFDP := currentFDPCheck
    currentFlightTime := currentFlightTimeCheck
    overallStatus :=
      if !allCompliant then Status.exceeded
      else if decide (0 < warnings.length) || someDanger then
        (if someDanger then Status.danger else Status.warning)
      else Status.good
    allCompliant := allCompliant
    warnings := warnings
    violations := violations }

end ComplianceChecker

namespace StorageManager

/-- `timeToMinutes` from `storage.js` (loose variant): an empty (falsy)
string yields 0; otherwise `parseInt(parts[0]) * 60 + parseInt(parts[1])`
with no validation — a missing second field or unparseable part makes the
result NaN (`none`). -/
def timeToMinutes (timeStr : String) : Option Int :=
  if timeStr = "" then some 0
  else
    match jsParseInt ((splitChars ':' timeStr.toList).getD 0 []),
        jsParseInt ((splitChars ':' timeStr.toList).getD 1 []) with
    | some h, some m => some (h * 60 + m)
    | _, _ => none

/-- The duty-length computation of `storage.js` (`addDutyRecord` lines
146–147 and `updateDutyRecord` lines 208–209): `release − report`, plus
1440 if negative. -/
def wrapDutyMinutes (reportMinutes releaseMinutes : Int) : Int :=
  let dutyMinutes := releaseMinutes - reportMinutes
  if dutyMinutes < 0 then dutyMinutes + 1440 else dutyMinutes

/-- Duty minutes from the two stored time strings, with NaN propagation
(`NaN - x` is NaN, `NaN < 0` is false, so a NaN operand leaves `dutyMinutes`
NaN in the source). -/
def dutyMinutesFromTimes (reportTime releaseTime : String) : Option Int :=
  match timeToMinutes reportTime, timeToMinutes releaseTime with
  | some r, some l => some (wrapDutyMinutes r l)
  | _, _ => none

/-- A stored duty record (`normalizedRecord` of `addDutyRecord`); the
`createdAt`/`updatedAt` wall-clock metadata fields are omitted.
`dutyMinutes` is `Option Int` because the source can store NaN there. -/
structure SRec where
  id : Nat
  date : String
  reportTime : String
  releaseTime : String
  dutyMinutes : Option Int
  flightMinutes : Int
  sectors : Int
  notes : String
deriving DecidableEq

/-- The caller-supplied argument of `addDutyRecord`; `flightTime` carries
the `parseFloat(record.flightTime)` value (`none` = absent or NaN, which
`|| 0` turns into 0). -/
structure AddInput where
  date : String
  reportTime : String
  releaseTime : String
  flightTime : Option ℚ
  sectors : Option Int
  notes : Option String
deriving DecidableEq

/-- `addDutyRecord` from `storage.js`: reject falsy date/report/release,
then build the normalized record, deriving `dutyMinutes` from the two time
strings and `flightMinutes` as `Math.round((parseFloat(..) || 0) * 60)`.
The impure `generateId()` is threaded as the `newId` argument, and the
localStorage write is not modelled (the returned record is the stored one). -/
def addDutyRecord (record : AddInput) (newId : Nat) : Option SRec :=
  if record.date = "" ∨ record.reportTime = "" ∨ record.releaseTime = "" then none
  else
    some
      { id := newId
        date := record.date
        reportTime := record.reportTime
        releaseTime := record.releaseTime
        dutyMinutes := dutyMinutesFromTimes record.reportTime record.releaseTime
        flightMinutes := jsRound ((record.flightTime.getD 0) * 60)
        sectors := record.sectors.getD 1
        notes := record.notes.getD "" }

/-- The `updates` object passed to `updateDutyRecord`: `some` marks a field
the caller supplied (a JS own-property), `none` an absent field. -/
structure RecordUpdates where
  reportTime : Option String
  releaseTime : Option String
  flightTime : Option ℚ
  dutyMinutes : Option Int
  notes : Option String
deriving DecidableEq

/-- The empty update object. -/
def noUpdates : RecordUpdates :=
  { reportTime := none, releaseTime := none, flightTime := none
    dutyMinutes := none, notes := none }

/-- The spread `{...records[index], ...updates}`: every supplied field
overwrites the stored one, including a directly supplied `dutyMinutes`. -/
def spreadUpdates (r : SRec) (u : RecordUpdates) : SRec :=
  { r with
    reportTime := u.reportTime.getD r.reportTime
    releaseTime := u.releaseTime.getD r.releaseTime
    dutyMinutes := match u.dutyMinutes with
      | some v => some v
      | none => r.dutyMinutes
    notes := u.notes.getD r.notes }

/-- JS truthiness of an optional string field (absent and empty are falsy). -/
def jsTruthy (o : Option String) : Bool :=
  match o with
  | none => false
  | some s => decide (s ≠ "")

/-- The per-record body of `updateDutyRecord` from `storage.js`: spread the
updates over the record, recompute `dutyMinutes` only when the updates carry
a truthy `reportTime` or `releaseTime`, and recompute `flightMinutes` only
when `updates.flightTime !== undefined`. -/
def updateRecordFields (r : SRec) (u : RecordUpdates) : SRec :=
  let r1 := spreadUpdates r u
  let r2 :=
    if jsTruthy u.reportTime || jsTruthy u.releaseTime then
      { r1 with dutyMinutes := dutyMinutesFromTimes r1.reportTime r1.releaseTime }
    else r1
  if u.flightTime.isSome then
    { r2 with flightMinutes := jsRound ((u.flightTime.getD 0) * 60) }
  else r2

/-- `updateDutyRecord` from `storage.js`: find the record by id (an absent
id yields the error result, modelled as `none`) and return the updated
record that is stored back at that index. -/
def updateDutyRecord (records : List SRec) (id : Nat) (u : RecordUpdates) :
    Option SRec :=
  match records.find? (fun r => r.id = id) with
  | none => none
  | some r => some (updateRecordFields r u)

end StorageManager

/-- Spec-side notion for the time-parsing claim: a well-formed `HH:MM`
24-hour string is two colon-separated fields of exactly two decimal digits
whose values are an hour in `[0, 23]` and a minute in `[0, 59]`. -/
def isWellFormedHHMM (s : String) : Bool :=
  match splitChars ':' s.toList with
  | [h, m] =>
      decide (h.length = 2) && h.all Char.isDigit &&
        decide (m.length = 2) && m.all Char.isDigit &&
        decide (digitsToNat h < 24) && decide (digitsToNat m < 60)
  | _ => false

/-- The hour and minute values of a (well-formed) `HH:MM` string. -/
def hhmmValue (s : String) : Int :=
  match splitChars ':' s.toList with
  | [h, m] => (digitsToNat h : Int) * 60 + (digitsToNat m : Int)
  | _ => 0

/-- Spec-side base-tier function for the rest claim: 10 h below 12 h of
duty, 12 h from 12 h up to (not including) 14 h, 14 h at or above 14 h
(duty measured in minutes). -/
def specBaseTier (dutyMinutes : ℚ) : Int :=
  if dutyMinutes < 720 then 600 else if dutyMinutes < 840 then 720 else 840

/-- Spec-side time-zone adjustment for the rest claim: +0 for 0–2 zones,
+60 for 3–4 zones, +120 for 5 or more. -/
def specTzAdjustment (zones : Int) : Int :=
  if zones ≤ 2 then 0 else if zones ≤ 4 then 60 else 120

theorem fdp_timeToMinutes_bounds {s : String} {v : Int}
    (h : FDPCalculator.timeToMinutes s = some v) : 0 ≤ v ∧ v < 1440 := by
  unfold FDPCalculator.timeToMinutes at h
  split at h
  · exact absurd h (by simp)
  · split at h
    · exact absurd h (by simp)
    · split at h
      · split at h
        · exact absurd h (by simp)
        · rename_i hcond
          simp only [Option.some.injEq] at h
          subst h
          push_neg at hcond
          omega
      all_goals exact absurd h (by simp)

theorem calcMaxFDP_bounds (rm sectors : Int) (acclim : String) :
    540 ≤ FDPCalculator.calcMaxFDP rm sectors acclim ∧
      FDPCalculator.calcMaxFDP rm sectors acclim ≤ 840 := by
  unfold FDPCalculator.calcMaxFDP FDPCalculator.MIN_FDP_ABSOLUTE FDPCalculator.MAX_FDP_ABSOLUTE
  exact ⟨le_max_left _ _, max_le (by norm_num) (min_le_left _ _)⟩

theorem calculate_success (reportTime : String) (rm sectors : Int) (acclim : String)
    (hp : FDPCalculator.timeToMinutes reportTime = some rm)
    (hv : ¬ (sectors < 1 ∨ sectors > 10)) :
    FDPCalculator.calculate reportTime sectors acclim =
      { success := true
        maxFDP := some (FDPCalculator.calcMaxFDP rm sectors acclim)
        endOfDuty := some ((rm + FDPCalculator.calcMaxFDP rm sectors acclim) % 1440)
        woclEncroachment :=
          FDPCalculator.encroachesWOCL rm
            ((rm + FDPCalculator.calcMaxFDP rm sectors acclim) % 1440)
        woclInfo :=
          if FDPCalculator.encroachesWOCL rm
              ((rm + FDPCalculator.calcMaxFDP rm sectors acclim) % 1440)
          then "Duty encroaches WOCL (0200-0559)"
          else if FDPCalculator.isInWOCL rm then "Report time is within WOCL"
          else "No encroachment"
        reportTimeRange := some (FDPCalculator.getReportTimeRange rm)
        sectorRange := some (FDPCalculator.getSectorRange sectors)
        reductions :=
          if acclim = "unacclimatized" then [FDPCalculator.UNACCLIMATIZED_REDUCTION] else []
        reportMinutes := some rm
        error := none } := by
  unfold FDPCalculator.calculate
  split
  · rename_i heq
    rw [hp] at heq
    exact absurd heq (by simp)
  · rename_i reportMinutes heq
    rw [hp] at heq
    injection heq with heq
    subst heq
    rw [if_neg hv]

theorem encroaches_eq_circular (s d : Int) (hs0 : 0 ≤ s) (hs1 : s < 1440)
    (hd0 : 540 ≤ d) (hd1 : d ≤ 840) :
    (FDPCalculator.encroachesWOCL s ((s + d) % 1440) = true ↔
      circularIntersectsWOCL s ((s + d) % 1440)) := by
  unfold FDPCalculator.encroachesWOCL FDPCalculator.WOCL_START FDPCalculator.WOCL_END
  simp only [circularIntersectsWOCL, inCircularInterval, inWOCLWindow,
    FDPCalculator.WOCL_START, FDPCalculator.WOCL_END]
  split
  · rename_i hwrap
    simp only [Bool.or_eq_true, Bool.and_eq_true, decide_eq_true_eq]
    constructor
    · rintro ((h1 | h1) | ⟨h1, h2⟩)
      · by_cases hc : s ≤ 120
        · exact ⟨120, by omega⟩
        · exact ⟨s, by omega⟩
      · exact ⟨120, by omega⟩
      · exfalso
        omega
    · rintro ⟨m, hm⟩
      omega
  · rename_i hwrap
    simp only [Bool.and_eq_true, decide_eq_true_eq]
    constructor
    · rintro ⟨h1, h2⟩
      by_cases hc : s ≤ 120
      · exact ⟨120, by omega⟩
      · exact ⟨s, by omega⟩
    · rintro ⟨m, hm⟩
      omega

/-- C2: for every valid report time, sector count in [1, 10] and
acclimatization status, the WOCL-encroachment flag returned by the FDP
calculation is true exactly when the circular interval
`[reportMinutes, endOfDutyMinutes)` intersects `[02:00, 06:00)` on a
24-hour clock, including the overnight case where the duty interval wraps
past midnight. -/
theorem wocl_flag_iff_circular_intersection (reportTime : String) (rm sectors : Int)
    (acclim : String) (hp : FDPCalculator.timeToMinutes reportTime = some rm)
    (hs1 : 1 ≤ sectors) (hs2 : sectors ≤ 10) :
    ((FDPCalculator.calculate reportTime sectors acclim).woclEncroachment = true ↔
      circularIntersectsWOCL rm
        ((FDPCalculator.calculate reportTime sectors acclim).endOfDuty.getD 0)) := by
  have hb := fdp_timeToMinutes_bounds hp
  have hc := calcMaxFDP_bounds rm sectors acclim
  rw [calculate_success reportTime rm sectors acclim hp (by omega)]
  exact encroaches_eq_circular rm (FDPCalculator.calcMaxFDP rm sectors acclim)
    hb.1 hb.2 hc.1 hc.2

/-- Witness for C2: the concrete overnight duty report 23:00, 2 sectors,
acclimatized. -/
theorem wocl_flag_iff_circular_intersection_witness :
    FDPCalculator.timeToMinutes "23:00" = some 1380 ∧
      ((FDPCalculator.calculate "23:00" 2 "acclimatized").woclEncroachment = true ↔
        circularIntersectsWOCL 1380
          ((FDPCalculator.calculate "23:00" 2 "acclimatized").endOfDuty.getD 0)) :=
  ⟨by decide, wocl_flag_iff_circular_intersection "23:00" 1380 2 "acclimatized"
    (by decide) (by decide) (by decide)⟩

/-- C6: for every valid report time, integer sector count in [1, 10] and
either acclimatization status, the maximum-FDP result of the FDP
calculation lies within [540, 840] minutes inclusive; and the night-bucket
5+-sector unacclimatized input (23:00, 6 sectors) yields exactly 540,
clamped up from 480. -/
theorem fdp_result_within_absolute_limits (reportTime : String) (rm sectors : Int)
    (acclim : String) (hp : FDPCalculator.timeToMinutes reportTime = some rm)
    (hs1 : 1 ≤ sectors) (hs2 : sectors ≤ 10) :
    (∃ f, (FDPCalculator.calculate reportTime sectors acclim).maxFDP = some f ∧
      540 ≤ f ∧ f ≤ 840) ∧
      (FDPCalculator.calculate "23:00" 6 "unacclimatized").maxFDP = some 540 := by
  constructor
  · refine ⟨FDPCalculator.calcMaxFDP rm sectors acclim, ?_,
      calcMaxFDP_bounds rm sectors acclim⟩
    rw [calculate_success reportTime rm sectors acclim hp (by omega)]
  · decide

/-- Witness for C6 at the concrete daytime input 07:30, 3 sectors,
acclimatized. -/
theorem fdp_result_within_absolute_limits_witness :
    FDPCalculator.timeToMinutes "07:30" = some 450 ∧
      ((∃ f, (FDPCalculator.calculate "07:30" 3 "acclimatized").maxFDP = some f ∧
        540 ≤ f ∧ f ≤ 840) ∧
        (FDPCalculator.calculate "23:00" 6 "unacclimatized").maxFDP = some 540) :=
  ⟨by decide, fdp_result_within_absolute_limits "07:30" 450 3 "acclimatized"
    (by decide) (by decide) (by decide)⟩

/-- C5: every rolling-window check sums exactly the records whose date lies
in `[now - window_days, now]`, both ends inclusive at day granularity: the
date filter equals the day-level filter `now.day - days ≤ date ≤ now.day`,
the 7-day duty total sums exactly those records, a record dated exactly
7 days before now is included in the 7-day window and a record dated 8 days
before now is excluded. -/
theorem rolling_window_day_inclusive (records : List ComplianceChecker.Rec)
    (days : Int) (now : ComplianceChecker.Now)
    (h0 : 0 ≤ now.minuteOfDay) (h1 : now.minuteOfDay < 1440) :
    ComplianceChecker.filterByDateRange records days now
      = records.filter
          (fun r => decide (now.day - days ≤ r.date) && decide (r.date ≤ now.day)) ∧
    (ComplianceChecker.check7DayDuty records now).current
      = ComplianceChecker.sumDutyTime
          (records.filter
            (fun r => decide (now.day - 7 ≤ r.date) && decide (r.date ≤ now.day))) ∧
    (∀ r ∈ records, r.date = now.day - 7 →
      r ∈ ComplianceChecker.filterByDateRange records 7 now) ∧
    (∀ r ∈ records, r.date = now.day - 8 →
      r ∉ ComplianceChecker.filterByDateRange records 7 now) := by
  have key : ∀ ds : Int, ComplianceChecker.filterByDateRange records ds now
      = records.filter
          (fun r => decide (now.day - ds ≤ r.date) && decide (r.date ≤ now.day)) := by
    intro ds
    unfold ComplianceChecker.filterByDateRange
    refine List.filter_congr ?_
    intro r _
    congr 1
    · exact decide_eq_decide.mpr (by omega)
    · exact decide_eq_decide.mpr (by omega)
  refine ⟨key days, ?_, ?_, ?_⟩
  · simp only [ComplianceChecker.check7DayDuty]
    rw [key 7]
  · intro r hr hdate
    rw [key 7, List.mem_filter]
    refine ⟨hr, ?_⟩
    simp only [Bool.and_eq_true, decide_eq_true_eq]
    omega
  · intro r hr hdate hmem
    rw [key 7, List.mem_filter] at hmem
    have h2 := hmem.2
    simp only [Bool.and_eq_true, decide_eq_true_eq] at h2
    omega

/-- Concrete records for the C5 witness: one dated exactly 7 days before
now, one dated 8 days before now. -/
def c5Records : List ComplianceChecker.Rec :=
  [{ date := 19993, dutyMinutes := 100, flightMinutes := 0 },
   { date := 19992, dutyMinutes := 50, flightMinutes := 0 }]

/-- Concrete "now" for the C5 witness (day 20000, 10:00). -/
def c5Now : ComplianceChecker.Now := { day := 20000, minuteOfDay := 600 }

/-- Witness for C5 at the concrete record set and clock. -/
theorem rolling_window_day_inclusive_witness :
    ComplianceChecker.filterByDateRange c5Records 7 c5Now
      = c5Records.filter
          (fun r => decide (c5Now.day - 7 ≤ r.date) && decide (r.date ≤ c5Now.day)) :=
  (rolling_window_day_inclusive c5Records 7 c5Now (by decide) (by decide)).1

/-- C8: the shared status classification returns EXCEEDED exactly when
current/limit is at least 1, DANGER exactly when in [0.95, 1), WARNING
exactly when in [0.85, 0.95), GOOD otherwise; and every produced check's
percentage field equals `min 100 ((current/limit) * 100)`. -/
theorem status_thresholds_and_percentage_cap :
    (∀ current limit : ℚ, 0 < limit →
      ((ComplianceChecker.getStatus current limit = ComplianceChecker.Status.exceeded ↔
          1 ≤ current / limit) ∧
        (ComplianceChecker.getStatus current limit = ComplianceChecker.Status.danger ↔
          ((0.95 : ℚ) ≤ current / limit ∧ current / limit < 1)) ∧
        (ComplianceChecker.getStatus current limit = ComplianceChecker.Status.warning ↔
          ((0.85 : ℚ) ≤ current / limit ∧ current / limit < (0.95 : ℚ))) ∧
        (ComplianceChecker.getStatus current limit = ComplianceChecker.Status.good ↔
          current / limit < (0.85 : ℚ)))) ∧
    (∀ records now,
      (ComplianceChecker.check7DayDuty records now).percentage
        = min 100 (((ComplianceChecker.check7DayDuty records now).current : ℚ) /
            ((ComplianceChecker.check7DayDuty records now).limit : ℚ) * 100) ∧
      (ComplianceChecker.check28DayDuty records now).percentage
        = min 100 (((ComplianceChecker.check28DayDuty records now).current : ℚ) /
            ((ComplianceChecker.check28DayDuty records now).limit : ℚ) * 100) ∧
      (ComplianceChecker.check28DayFlightTime records now).percentage
        = min 100 (((ComplianceChecker.check28DayFlightTime records now).current : ℚ) /
            ((ComplianceChecker.check28DayFlightTime records now).limit : ℚ) * 100) ∧
      (ComplianceChecker.check365DayFlightTime records now).percentage
        = min 100 (((ComplianceChecker.check365DayFlightTime records now).current : ℚ) /
            ((ComplianceChecker.check365DayFlightTime records now).limit : ℚ) * 100)) ∧
    (∀ cur lim : Int,
      (ComplianceChecker.checkCurrentFDP cur lim).percentage
        = min 100 ((cur : ℚ) / (lim : ℚ) * 100)) ∧
    (∀ cur : Int, ∀ aug : Bool,
      (ComplianceChecker.checkCurrentFlightTime cur aug).percentage
        = min 100 (((ComplianceChecker.checkCurrentFlightTime cur aug).current : ℚ) /
            ((ComplianceChecker.checkCurrentFlightTime cur aug).limit : ℚ) * 100)) := by
  refine ⟨?_, ?_, ?_, ?_⟩
  · intro current limit hl
    simp only [ComplianceChecker.getStatus, ComplianceChecker.DANGER_THRESHOLD,
      ComplianceChecker.WARNING_THRESHOLD]
    split_ifs with h1 h2 h3
    · exact ⟨⟨fun _ => h1, fun _ => rfl⟩,
        ⟨fun h => absurd h (by decide), fun hb => False.elim (by linarith [hb.2])⟩,
        ⟨fun h => absurd h (by decide), fun hb => False.elim (by linarith [hb.2])⟩,
        ⟨fun h => absurd h (by decide), fun hb => False.elim (by linarith)⟩⟩
    · exact ⟨⟨fun h => absurd h (by decide), fun hb => absurd hb h1⟩,
        ⟨fun _ => ⟨h2, lt_of_not_le h1⟩, fun _ => rfl⟩,
        ⟨fun h => absurd h (by decide), fun hb => False.elim (by linarith [hb.2])⟩,
        ⟨fun h => absurd h (by decide), fun hb => False.elim (by linarith)⟩⟩
    · exact ⟨⟨fun h => absurd h (by decide), fun hb => absurd hb h1⟩,
        ⟨fun h => absurd h (by decide), fun hb => absurd hb.1 h2⟩,
        ⟨fun _ => ⟨h3, lt_of_not_le h2⟩, fun _ => rfl⟩,
        ⟨fun h => absurd h (by decide), fun hb => False.elim (by linarith)⟩⟩
    · exact ⟨⟨fun h => absurd h (by decide), fun hb => absurd hb h1⟩,
        ⟨fun h => absurd h (by decide), fun hb => absurd hb.1 h2⟩,
        ⟨fun h => absurd h (by decide), fun hb => absurd hb.1 h3⟩,
        ⟨fun _ => lt_of_not_le h3, fun _ => rfl⟩⟩
  · intro records now
    refine ⟨?_, ?_, ?_, ?_⟩ <;> rfl
  · intro cur lim
    rfl
  · intro cur aug
    rfl

/-- Witness for C8 at concrete arguments. -/
theorem status_thresholds_and_percentage_cap_witness :
    ComplianceChecker.getStatus 3060 3600 = ComplianceChecker.Status.warning ↔
      ((0.85 : ℚ) ≤ (3060 : ℚ) / 3600 ∧ (3060 : ℚ) / 3600 < (0.95 : ℚ)) :=
  (status_thresholds_and_percentage_cap.1 3060 3600 (by norm_num)).2.2.1

/-- Concrete record set for C10: a single record today whose duty total
equals the 7-day limit exactly. -/
def c10Records : List ComplianceChecker.Rec :=
  [{ date := 20000, dutyMinutes := 3600, flightMinutes := 0 }]

/-- Concrete "now" for C10 (day 20000, 10:00). -/
def c10Now : ComplianceChecker.Now := { day := 20000, minuteOfDay := 600 }

/-- C10: a check whose current total exactly equals its limit has status
EXCEEDED while its compliant flag is true (the ratio-1 boundary), so it
contributes neither a violation nor a warning, and a report can have
overall status GOOD while containing a check with status EXCEEDED. -/
theorem exact_limit_exceeded_yet_compliant :
    (∀ limitQ : ℚ, 0 < limitQ →
      ComplianceChecker.getStatus limitQ limitQ = ComplianceChecker.Status.exceeded) ∧
    ((ComplianceChecker.runAllChecks c10Records c10Now none).duty7Day.status
        = ComplianceChecker.Status.exceeded ∧
      (ComplianceChecker.runAllChecks c10Records c10Now none).duty7Day.compliant = true ∧
      (ComplianceChecker.runAllChecks c10Records c10Now none).duty7Day.current
        = (ComplianceChecker.runAllChecks c10Records c10Now none).duty7Day.limit ∧
      (ComplianceChecker.runAllChecks c10Records c10Now none).violations = [] ∧
      (ComplianceChecker.runAllChecks c10Records c10Now none).warnings = [] ∧
      (ComplianceChecker.runAllChecks c10Records c10Now none).overallStatus
        = ComplianceChecker.Status.good) := by
  constructor
  · intro limitQ hl
    simp only [ComplianceChecker.getStatus]
    rw [div_self (ne_of_gt hl)]
    rw [if_pos le_rfl]
  · norm_num [ComplianceChecker.runAllChecks, ComplianceChecker.check7DayDuty,
      ComplianceChecker.check28DayDuty, ComplianceChecker.check28DayFlightTime,
      ComplianceChecker.check365DayFlightTime, ComplianceChecker.filterByDateRange,
      ComplianceChecker.sumDutyTime, ComplianceChecker.sumFlightTime,
      ComplianceChecker.getStatus, ComplianceChecker.getCheckName,
      ComplianceChecker.DUTY_7_DAY, ComplianceChecker.DUTY_28_DAY,
      ComplianceChecker.FLIGHT_TIME_28_DAY, ComplianceChecker.FLIGHT_TIME_365_DAY,
      ComplianceChecker.DANGER_THRESHOLD, ComplianceChecker.WARNING_THRESHOLD,
      List.filterMap_cons, List.filterMap_nil, id_eq, c10Records, c10Now]
    all_goals decide

/-- Witness for C10's universally quantified part at limit 3600. -/
theorem exact_limit_exceeded_yet_compliant_witness :
    ComplianceChecker.getStatus 3600 3600 = ComplianceChecker.Status.exceeded :=
  exact_limit_exceeded_yet_compliant.1 3600 (by norm_num)

/-- Concrete record set for C1: a single record 100 days old (inside the
365-day window, outside both 28-day windows) with 60001 flight minutes —
one minute over the 1000-hour annual limit. -/
def c1Records : List ComplianceChecker.Rec :=
  [{ date := 19900, dutyMinutes := 0, flightMinutes := 60001 }]

/-- Concrete "now" for C1 (day 20000, 10:00). -/
def c1Now : ComplianceChecker.Now := { day := 20000, minuteOfDay := 600 }

/-- C1: evaluation of `runAllChecks` at a record set whose 365-day flight
time exceeds the annual limit: the 365-day check itself is non-compliant
with status EXCEEDED, yet the report's violations list is empty,
`allCompliant` is true and the overall status is GOOD, because the source's
aggregation list omits `flightTime365Day`. -/
theorem annual_flight_time_violation_not_aggregated :
    (ComplianceChecker.runAllChecks c1Records c1Now none).flightTime365Day.compliant
        = false ∧
      (ComplianceChecker.runAllChecks c1Records c1Now none).flightTime365Day.status
        = ComplianceChecker.Status.exceeded ∧
      (ComplianceChecker.runAllChecks c1Records c1Now none).violations = [] ∧
      (ComplianceChecker.runAllChecks c1Records c1Now none).warnings = [] ∧
      (ComplianceChecker.runAllChecks c1Records c1Now none).allCompliant = true ∧
      (ComplianceChecker.runAllChecks c1Records c1Now none).overallStatus
        = ComplianceChecker.Status.good := by
  norm_num [ComplianceChecker.runAllChecks, ComplianceChecker.check7DayDuty,
    ComplianceChecker.check28DayDuty, ComplianceChecker.check28DayFlightTime,
    ComplianceChecker.check365DayFlightTime, ComplianceChecker.filterByDateRange,
    ComplianceChecker.sumDutyTime, ComplianceChecker.sumFlightTime,
    ComplianceChecker.getStatus, ComplianceChecker.getCheckName,
    ComplianceChecker.DUTY_7_DAY, ComplianceChecker.DUTY_28_DAY,
    ComplianceChecker.FLIGHT_TIME_28_DAY, ComplianceChecker.FLIGHT_TIME_365_DAY,
    ComplianceChecker.DANGER_THRESHOLD, ComplianceChecker.WARNING_THRESHOLD,
    List.filterMap_cons, List.filterMap_nil, id_eq, c1Records, c1Now]
  all_goals decide

/-- C7: for every valid duty-end time, preceding duty length in [0, 24]
hours and non-negative timezone count, the minimum rest equals
`specBaseTier(dutyMinutes) + specTzAdjustment(zones)` — 600 minutes below
12 h of duty, 720 from 12 h up to 14 h, 840 at or above 14 h, plus 0/60/120
minutes for 0–2/3–4/5+ zones — and is never below the 600-minute
sleep-opportunity floor. -/
theorem rest_min_is_base_tier_plus_tz (dutyEnd : String) (em : Int) (hours : ℚ)
    (zones : Int) (hp : RestCalculator.timeToMinutes dutyEnd = some em)
    (h0 : 0 ≤ hours) (h24 : hours ≤ 24) (hz : 0 ≤ zones) :
    (RestCalculator.calculate dutyEnd hours zones).minRest
        = some (specBaseTier (hours * 60) + specTzAdjustment zones) ∧
      600 ≤ specBaseTier (hours * 60) + specTzAdjustment zones := by
  constructor
  · unfold RestCalculator.calculate
    split
    · rename_i heq
      rw [hp] at heq
      exact absurd heq (by simp)
    · rename_i dutyEndMinutes heq
      rw [hp] at heq
      injection heq with heq
      subst heq
      dsimp only
      rw [if_neg (show ¬ (hours * 60 < 0 ∨ hours * 60 > 1440) from by
        push_neg
        exact ⟨by linarith, by linarith⟩)]
      simp only [Option.some.injEq]
      unfold RestCalculator.getTimezoneCategory RestCalculator.TIMEZONE_ADJUSTMENTS
        RestCalculator.VERY_LONG_DUTY_THRESHOLD RestCalculator.EXTENDED_DUTY_THRESHOLD
        RestCalculator.VERY_LONG_DUTY_MIN RestCalculator.EXTENDED_DUTY_MIN
        RestCalculator.STANDARD_MIN RestCalculator.MIN_SLEEP_OPPORTUNITY
        specBaseTier specTzAdjustment
      split_ifs <;> first | rfl | omega | linarith | simp_all
  · unfold specBaseTier specTzAdjustment
    split_ifs <;> norm_num

/-- Witness for C7: duty ends 18:00 after 13 hours of duty with 3 zones
crossed, giving 720 + 60 minutes of required rest. -/
theorem rest_min_is_base_tier_plus_tz_witness :
    (RestCalculator.calculate "18:00" 13 3).minRest
        = some (specBaseTier (13 * 60) + specTzAdjustment 3) ∧
      600 ≤ specBaseTier ((13 : ℚ) * 60) + specTzAdjustment 3 :=
  rest_min_is_base_tier_plus_tz "18:00" 1080 13 3 (by decide) (by norm_num)
    (by norm_num) (by norm_num)

/-- The stored record used for the C3 counterexample and witness. -/
def c3Record : StorageManager.SRec :=
  { id := 1, date := "2026-01-01", reportTime := "08:00", releaseTime := "16:00"
    dutyMinutes := some 480, flightMinutes := 0, sectors := 1, notes := "" }

/-- An update supplying only a direct `dutyMinutes` value. -/
def c3Updates : StorageManager.RecordUpdates :=
  { reportTime := none, releaseTime := none, flightTime := none
    dutyMinutes := some 999, notes := none }

/-- C3 counterexample: an update that supplies `dutyMinutes` directly (and
no time field) stores 999 verbatim, although the wrap-corrected difference
of the record's report and release times is 480 — `dutyMinutes` CAN be
edited directly by an update. -/
theorem direct_dutyMinutes_update_stored_verbatim :
    StorageManager.updateDutyRecord [c3Record] 1 c3Updates
        = some { c3Record with dutyMinutes := some 999 } ∧
      StorageManager.dutyMinutesFromTimes c3Record.reportTime c3Record.releaseTime
        = some 480 ∧
      (999 : Int) ≠ 480 := by
  decide

/-- C3 (amended): after an update operation that supplies a non-empty
`reportTime` or `releaseTime`, the stored record's `dutyMinutes` equals the
wrap-corrected difference recomputed from the record's (possibly updated)
report and release time strings. -/
theorem dutyMinutes_recomputed_when_times_updated (records : List StorageManager.SRec)
    (id : Nat) (u : StorageManager.RecordUpdates) (updated : StorageManager.SRec)
    (hres : StorageManager.updateDutyRecord records id u = some updated)
    (ht : StorageManager.jsTruthy u.reportTime = true ∨
      StorageManager.jsTruthy u.releaseTime = true) :
    updated.dutyMinutes
      = StorageManager.dutyMinutesFromTimes updated.reportTime updated.releaseTime := by
  unfold StorageManager.updateDutyRecord at hres
  split at hres
  · exact absurd hres (by simp)
  · rename_i r hfind
    simp only [Option.some.injEq] at hres
    subst hres
    unfold StorageManager.updateRecordFields
    have hcond : (StorageManager.jsTruthy u.reportTime ||
        StorageManager.jsTruthy u.releaseTime) = true := by
      rcases ht with h | h <;> simp [h]
    dsimp only
    rw [if_pos hcond]
    split <;> rfl

/-- The update used for the C3 witness: a new report time 09:00. -/
def c3WitnessUpdates : StorageManager.RecordUpdates :=
  { reportTime := some "09:00", releaseTime := none, flightTime := none
    dutyMinutes := none, notes := none }

/-- The record produced by the C3 witness update. -/
def c3UpdatedRecord : StorageManager.SRec :=
  { id := 1, date := "2026-01-01", reportTime := "09:00", releaseTime := "16:00"
    dutyMinutes := some 420, flightMinutes := 0, sectors := 1, notes := "" }

/-- Witness for the amended C3 at a concrete update of the report time. -/
theorem dutyMinutes_recomputed_when_times_updated_witness :
    c3UpdatedRecord.dutyMinutes
      = StorageManager.dutyMinutesFromTimes c3UpdatedRecord.reportTime
          c3UpdatedRecord.releaseTime :=
  dutyMinutes_recomputed_when_times_updated [c3Record] 1 c3WitnessUpdates
    c3UpdatedRecord (by decide) (Or.inl (by decide))

theorem digit_not_whitespace {c : Char} (h : c.isDigit = true) :
    c.isWhitespace = false := by
  by_cases h1 : c = ' '
  · rw [h1] at h
    exact absurd h (by decide)
  · by_cases h2 : c = '\t'
    · rw [h2] at h
      exact absurd h (by decide)
    · by_cases h3 : c = '\r'
      · rw [h3] at h
        exact absurd h (by decide)
      · by_cases h4 : c = '\n'
        · rw [h4] at h
          exact absurd h (by decide)
        · simp [Char.isWhitespace, h1, h2, h3, h4]

theorem takeWhile_all_digits {cs : List Char} (h : cs.all Char.isDigit = true) :
    cs.takeWhile Char.isDigit = cs := by
  induction cs with
  | nil => rfl
  | cons c rest ih =>
      simp only [List.all_cons, Bool.and_eq_true] at h
      rw [List.takeWhile_cons, if_pos h.1, ih h.2]

theorem jsParseInt_all_digits {cs : List Char} (hne : cs ≠ [])
    (hdig : cs.all Char.isDigit = true) :
    jsParseInt cs = some ((digitsToNat cs : Int)) := by
  match cs, hne with
  | c :: rest, _ =>
    simp only [List.all_cons, Bool.and_eq_true] at hdig
    obtain ⟨hc, hrest⟩ := hdig
    have hws : Char.isWhitespace c = false := digit_not_whitespace hc
    have hm : c ≠ '-' := by
      intro h0
      rw [h0] at hc
      exact absurd hc (by decide)
    have hp2 : c ≠ '+' := by
      intro h0
      rw [h0] at hc
      exact absurd hc (by decide)
    unfold jsParseInt
    rw [List.dropWhile_cons, if_neg (by simp [hws])]
    dsimp only
    rw [if_neg hm, if_neg hp2]
    unfold jsParseIntFrom
    dsimp only
    rw [takeWhile_all_digits (by simp [List.all_cons, hc, hrest])]
    rw [if_neg (by simp)]
    rw [one_mul]

/-- C4 counterexample: the string `12:30x` is not a well-formed HH:MM time
(its minute field carries a trailing non-digit), yet the parser accepts it
and returns 750, because JavaScript `parseInt` ignores trailing characters
after the digit prefix. -/
theorem time_parser_accepts_trailing_garbage :
    FDPCalculator.timeToMinutes "12:30x" = some 750 ∧
      isWellFormedHHMM "12:30x" = false := by
  decide

/-- C4 (amended): the parser returns a sentinel rather than throwing, every
well-formed HH:MM string parses to hour*60 + minute, and every accepted
string yields a value composed of an hour in [0, 23] and a minute in
[0, 59] — but acceptance is via `parseInt` leniency, so some malformed
strings are also accepted (see the counterexample). -/
theorem time_parser_wellformed_parse_and_range (s : String) :
    (isWellFormedHHMM s = true →
      FDPCalculator.timeToMinutes s = some (hhmmValue s)) ∧
    (∀ v : Int, FDPCalculator.timeToMinutes s = some v →
      ∃ hv mv : Int, 0 ≤ hv ∧ hv ≤ 23 ∧ 0 ≤ mv ∧ mv ≤ 59 ∧ v = hv * 60 + mv) := by
  constructor
  · intro hwf
    unfold isWellFormedHHMM at hwf
    split at hwf
    · rename_i h m heq
      simp only [Bool.and_eq_true, decide_eq_true_eq] at hwf
      obtain ⟨⟨⟨⟨⟨hl2, hdig⟩, ml2⟩, mdig⟩, hlt⟩, mlt⟩ := hwf
      have hs : s ≠ "" := by
        intro h0
        rw [h0] at heq
        have h1 : splitChars ':' (String.toList "") = [[]] := rfl
        rw [h1] at heq
        simp at heq
      have hne : h ≠ [] := by
        intro h0
        rw [h0] at hl2
        simp at hl2
      have mne : m ≠ [] := by
        intro h0
        rw [h0] at ml2
        simp at ml2
      unfold FDPCalculator.timeToMinutes
      rw [if_neg hs, heq]
      rw [if_neg (by simp)]
      simp only [List.getD_cons_zero, List.getD_cons_succ]
      rw [jsParseInt_all_digits hne hdig, jsParseInt_all_digits mne mdig]
      split
      · rename_i hours minutes heqh heqm
        injection heqh with heqh
        injection heqm with heqm
        subst heqh
        subst heqm
        rw [if_neg (by omega)]
        unfold hhmmValue
        rw [heq]
      · rename_i hcontra
        exact (hcontra ((digitsToNat h : Int)) ((digitsToNat m : Int)) rfl rfl).elim
    · exact absurd hwf (by simp)
  · intro v hv
    unfold FDPCalculator.timeToMinutes at hv
    split at hv
    · exact absurd hv (by simp)
    · split at hv
      · exact absurd hv (by simp)
      · split at hv
        · rename_i hours minutes heq1 heq2
          split at hv
          · exact absurd hv (by simp)
          · rename_i hcond
            simp only [Option.some.injEq] at hv
            push_neg at hcond
            exact ⟨hours, minutes, by omega, by omega, by omega, by omega, hv.symm⟩
        all_goals exact absurd hv (by simp)

/-- Witness for the amended C4 at the well-formed input 09:05. -/
theorem time_parser_wellformed_parse_and_range_witness :
    FDPCalculator.timeToMinutes "09:05" = some (hhmmValue "09:05") :=
  (time_parser_wellformed_parse_and_range "09:05").1 (by decide)

/-- C9: the duty-length computation used when a record is created or its
times are updated yields `release - report` when non-negative and
`release - report + 1440` when negative, always lands in [0, 1440), and the
concrete record report 23:00 / release 01:00 is stored with 120 duty
minutes. -/
theorem duty_wrap_computation (rep rel : Int) (h1 : 0 ≤ rep) (h2 : rep < 1440)
    (h3 : 0 ≤ rel) (h4 : rel < 1440) :
    (StorageManager.wrapDutyMinutes rep rel
        = (if rep ≤ rel then rel - rep else rel - rep + 1440)) ∧
      0 ≤ StorageManager.wrapDutyMinutes rep rel ∧
      StorageManager.wrapDutyMinutes rep rel < 1440 ∧
      ((StorageManager.addDutyRecord
          { date := "2026-02-03", reportTime := "23:00", releaseTime := "01:00"
            flightTime := none, sectors := none, notes := none } 7).map
        (fun r => r.dutyMinutes)) = some (some 120) := by
  refine ⟨?_, ?_, ?_, ?_⟩
  · simp only [StorageManager.wrapDutyMinutes]
    split_ifs <;> omega
  · simp only [StorageManager.wrapDutyMinutes]
    split_ifs <;> omega
  · simp only [StorageManager.wrapDutyMinutes]
    split_ifs <;> omega
  · decide

/-- Witness for C9 at the overnight pair report 23:00 (1380), release
01:00 (60). -/
theorem duty_wrap_computation_witness :
    (StorageManager.wrapDutyMinutes 1380 60
        = (if (1380 : Int) ≤ 60 then 60 - 1380 else 60 - 1380 + 1440)) ∧
      0 ≤ StorageManager.wrapDutyMinutes 1380 60 ∧
      StorageManager.wrapDutyMinutes 1380 60 < 1440 ∧
      ((StorageManager.addDutyRecord
          { date := "2026-02-03", reportTime := "23:00", releaseTime := "01:00"
            flightTime := none, sectors := none, notes := none } 7).map
        (fun r => r.dutyMinutes)) = some (some 120) :=
  duty_wrap_computation 1380 60 (by decide) (by decide) (by decide) (by decide)
